import Mathlib

/-!
Verification of `discord/ui/input_text.py` (the `InputText` modal text-input
field) against its natural-language specification.

The Python class is embedded shallowly: the object's mutable state becomes a
Lean structure, each property setter becomes a function
`InputText → arg → Except Err Unit × InputText` that threads the state
explicitly (so that a raise occurring after a partial mutation would be
observable), and the constructor becomes a function returning
`Except Err InputText`.  Python truthiness of optional arguments
(`if min_length and ...` skips the check when the value is `None`, `0` or
`""`) is modelled explicitly, as is the exact parenthesization of every
bound check in the source.

The randomness of `os.urandom(16)` is modelled by passing the 16 raw bytes
as an explicit `entropy` argument; `bytes.hex()` is embedded as
`bytesToHex` (two lowercase hex digits per byte, Python stdlib semantics).

`InputText` delegates storage to `discord.components.InputText`
(`_raw_construct` and `to_dict`), whose source is not part of this
repository snapshot; those two operations are modelled from the spec, as
marked on their definitions.
-/

namespace Pycord

/-- Modelled from the spec: `discord.enums.InputTextStyle` is not in this
repository snapshot; the spec gives the enum `{Short, Paragraph}` with wire
values 1 and 2. -/
inductive InputTextStyle where
  | short
  | paragraph
  deriving DecidableEq, Repr

/-- Modelled from the spec: the wire value of each style member (`1 | 2`,
Short | Paragraph). -/
def InputTextStyle.value : InputTextStyle → Nat
  | .short => 1
  | .paragraph => 2

/-- Modelled from the spec: `discord.enums.ComponentType` is not in this
repository snapshot; only the input-text tag is needed here. -/
inductive ComponentType where
  | input_text
  deriving DecidableEq, Repr

/-- The two error kinds the component can raise: `ValueError`
(ValidationError) and `TypeError`, each carrying the message string from the
source. -/
inductive Err where
  | valueError (msg : String)
  | typeError (msg : String)
  deriving DecidableEq, Repr

/-- A Python argument that is declared `str | None` but may at runtime be any
object: `pyNone` is `None`, `pyStr s` a string, `pyOther tn` a non-string
non-None object whose class name is `tn` (used only for its `isinstance`
failure, which the source raises `TypeError` on before ever storing it). -/
inductive PyStrArg where
  | pyNone
  | pyStr (s : String)
  | pyOther (typeName : String)
  deriving DecidableEq, Repr

/-- A value declared `InputTextStyle` that may at runtime be any object:
`enum s` is a genuine enum member, `other tn` anything else (class name
`tn`). -/
inductive StyleArg where
  | enum (s : InputTextStyle)
  | other (typeName : String)
  deriving DecidableEq, Repr

/-- Python truthiness of an `int | None` value: `None` and `0` are falsy. -/
def optIntTruthy : Option Int → Bool
  | none => false
  | some n => n != 0

/-- Python truthiness of a `str | None` value: `None` and `""` are falsy. -/
def optStrTruthy : Option String → Bool
  | none => false
  | some s => s != ""

/-- The hexadecimal alphabet used by Python's `bytes.hex()` (lowercase),
as the character list of the digit string. -/
def hexChars : List Char := "0123456789abcdef".data

/-- One lowercase hex digit for a nibble value. -/
def hexDigit (n : Nat) : Char := hexChars.getD n '0'

/-- Python `bytes.hex()` on a single byte: high nibble then low nibble. -/
def byteToHex (b : Nat) : List Char := [hexDigit (b / 16), hexDigit (b % 16)]

/-- Python `bytes.hex()`: two lowercase hex characters per byte. -/
def bytesToHex (bs : List Nat) : String := String.mk (List.flatten (bs.map byteToHex))

/-- The state of the underlying `discord.components.InputText` record the UI
class delegates storage to (spec section 6 calls it "a plain mutable record
with the same field set"). -/
structure InputTextComponent where
  type : ComponentType
  style : InputTextStyle
  custom_id : String
  label : String
  placeholder : Option String
  min_length : Option Int
  max_length : Option Int
  required : Option Bool
  value : Option String
  id : Option Int
  deriving DecidableEq, Repr

/-- Modelled from the spec: the wire record produced by
`discord.components.InputText.to_dict` (not in this repository snapshot).
Spec section 6 gives its shape: type tag, style as its wire value, custom_id,
label, then optional placeholder, min_length, max_length, required, value and
id; `row` is excluded (the structure has no row field). `none` models an
absent key. -/
structure InputTextPayload where
  type : ComponentType
  style : Nat
  custom_id : String
  label : String
  placeholder : Option String
  min_length : Option Int
  max_length : Option Int
  required : Option Bool
  value : Option String
  id : Option Int
  deriving DecidableEq, Repr

/-- Modelled from the spec: `discord.components.InputText.to_dict` copies the
wire-visible fields into the wire record, serializing the style as its
numeric value and leaving absent optionals absent. -/
def InputTextComponent.to_dict (c : InputTextComponent) : InputTextPayload :=
  { type := c.type
    style := c.style.value
    custom_id := c.custom_id
    label := c.label
    placeholder := c.placeholder
    min_length := c.min_length
    max_length := c.max_length
    required := c.required
    value := c.value
    id := c.id }

/-- The state of a `discord.ui.InputText` object: the delegated component
record, the `_input_value` response sentinel (`none` models the initial
`False`, `some s` a response string recorded by `refresh_state` — the
framework contract, spec section 6, relays `\x7b value: string \x7d`), the
`row` layout hint and the private `_rendered_row`. -/
structure InputText where
  underlying : InputTextComponent
  input_value : Option String
  row : Option Int
  rendered_row : Option Int
  deriving DecidableEq, Repr

/-- The constructor check `min_length and (min_length < 0 or min_length > 4000)`
(source line 80): skipped when `min_length` is falsy (`None` or `0`). -/
def minLengthBadInit : Option Int → Bool
  | none => false
  | some n => n != 0 && (n < 0 || n > 4000)

/-- The constructor check `max_length and (max_length < 0 or max_length > 4000)`
(source line 82): skipped when `max_length` is falsy (`None` or `0`); note the
strict `< 0` even though the message says "between 1 and 4000". -/
def maxLengthBadInit : Option Int → Bool
  | none => false
  | some n => n != 0 && (n < 0 || n > 4000)

/-- The setter check `value and (value < 0 or value) > 4000` (source line
186).  Python evaluates `value < 0 or value` first: it is `True` when
`value < 0` and `value` itself otherwise; the comparison with `4000` then
coerces `True` to `1`.  So a negative value compares `1 > 4000`, which is
false, and is accepted. -/
def minLengthBadSet : Option Int → Bool
  | none => false
  | some n => n != 0 && ((if n < 0 then (1 : Int) else n) > 4000)

/-- The setter check `value and (value <= 0 or value > 4000)` (source line
199): skipped when `value` is falsy (`None` or `0`). -/
def maxLengthBadSet : Option Int → Bool
  | none => false
  | some n => n != 0 && (n ≤ 0 || n > 4000)

/-- The check `value and len(str(value)) > 4000` (source lines 84 and 226):
skipped when `value` is falsy (`None` or `""`). -/
def valueBad : Option String → Bool
  | none => false
  | some s => s != "" && s.length > 4000

/-- The check `placeholder and len(str(placeholder)) > 100` (source lines 86
and 173): skipped when falsy (`None` or `""`). -/
def placeholderBad : Option String → Bool
  | none => false
  | some s => s != "" && s.length > 100

/-- Constructor `InputText.__init__` (source lines 63 to 108): validation checks in
source order, then `custom_id` type check and generation
(`os.urandom(16).hex()` modelled by `entropy`), then `_raw_construct` of the
underlying record (modelled from the spec as plain field assignment, source
not in this snapshot), `_input_value = False`, `self.row = row` (a plain
attribute, no validation in this class) and `_rendered_row = None`. -/
def InputText.init (style : InputTextStyle) (custom_id : PyStrArg)
    (label : String) (placeholder : Option String) (min_length : Option Int)
    (max_length : Option Int) (required : Option Bool) (value : Option String)
    (row : Option Int) (id : Option Int) (entropy : List Nat) :
    Except Err InputText :=
  if label.length > 45 then
    .error (.valueError "label must be 45 characters or fewer")
  else if minLengthBadInit min_length then
    .error (.valueError "min_length must be between 0 and 4000")
  else if maxLengthBadInit max_length then
    .error (.valueError "max_length must be between 1 and 4000")
  else if valueBad value then
    .error (.valueError "value must be 4000 characters or fewer")
  else if placeholderBad placeholder then
    .error (.valueError "placeholder must be 100 characters or fewer")
  else
    match custom_id with
    | .pyOther tn => .error (.typeError ("expected custom_id to be str, not " ++ tn))
    | .pyNone =>
        .ok { underlying :=
                { type := .input_text
                  style := style
                  custom_id := bytesToHex entropy
                  label := label
                  placeholder := placeholder
                  min_length := min_length
                  max_length := max_length
                  required := required
                  value := value
                  id := id }
              input_value := none
              row := row
              rendered_row := none }
    | .pyStr s =>
        .ok { underlying :=
                { type := .input_text
                  style := style
                  custom_id := s
                  label := label
                  placeholder := placeholder
                  min_length := min_length
                  max_length := max_length
                  required := required
                  value := value
                  id := id }
              input_value := none
              row := row
              rendered_row := none }

/-- The `style` setter (source lines 130 to 136): `isinstance` check, then
assignment to the underlying record. -/
def InputText.style_set (self : InputText) (v : StyleArg) :
    Except Err Unit × InputText :=
  match v with
  | .other tn =>
      (.error (.typeError ("style must be of type InputTextStyle not " ++ tn)), self)
  | .enum s =>
      (.ok (), { self with underlying := { self.underlying with style := s } })

/-- The `custom_id` setter (source lines 143 to 149): `isinstance(value, str)`
check (so `None` also raises `TypeError`), then assignment. -/
def InputText.custom_id_set (self : InputText) (v : PyStrArg) :
    Except Err Unit × InputText :=
  match v with
  | .pyStr s =>
      (.ok (), { self with underlying := { self.underlying with custom_id := s } })
  | .pyNone =>
      (.error (.typeError "custom_id must be None or str not NoneType"), self)
  | .pyOther tn =>
      (.error (.typeError ("custom_id must be None or str not " ++ tn)), self)

/-- The `label` setter (source lines 156 to 162): `isinstance` check, length
check, then assignment. -/
def InputText.label_set (self : InputText) (v : PyStrArg) :
    Except Err Unit × InputText :=
  match v with
  | .pyStr s =>
      if s.length > 45 then
        (.error (.valueError "label must be 45 characters or fewer"), self)
      else
        (.ok (), { self with underlying := { self.underlying with label := s } })
  | .pyNone =>
      (.error (.typeError "label should be str not NoneType"), self)
  | .pyOther tn =>
      (.error (.typeError ("label should be str not " ++ tn)), self)

/-- The `placeholder` setter (source lines 169 to 175): truthiness-guarded
length check, then assignment. -/
def InputText.placeholder_set (self : InputText) (v : Option String) :
    Except Err Unit × InputText :=
  if placeholderBad v then
    (.error (.valueError "placeholder must be 100 characters or fewer"), self)
  else
    (.ok (), { self with underlying := { self.underlying with placeholder := v } })

/-- The `min_length` setter (source lines 182 to 188): truthiness-guarded
bound check with the source's exact parenthesization (see `minLengthBadSet`),
then assignment. -/
def InputText.min_length_set (self : InputText) (v : Option Int) :
    Except Err Unit × InputText :=
  if minLengthBadSet v then
    (.error (.valueError "min_length must be between 0 and 4000"), self)
  else
    (.ok (), { self with underlying := { self.underlying with min_length := v } })

/-- The `max_length` setter (source lines 195 to 201): truthiness-guarded
bound check `value <= 0 or value > 4000`, then assignment. -/
def InputText.max_length_set (self : InputText) (v : Option Int) :
    Except Err Unit × InputText :=
  if maxLengthBadSet v then
    (.error (.valueError "max_length must be between 1 and 4000"), self)
  else
    (.ok (), { self with underlying := { self.underlying with max_length := v } })

/-- The `required` setter (source lines 208 to 212): `isinstance(value, bool)`
check (so `None` raises `TypeError`), then assignment of `bool(value)`. -/
def InputText.required_set (self : InputText) (v : Option Bool) :
    Except Err Unit × InputText :=
  match v with
  | none =>
      (.error (.typeError "required must be bool not NoneType"), self)
  | some b =>
      (.ok (), { self with underlying := { self.underlying with required := some b } })

/-- The `value` setter (source lines 222 to 228): truthiness-guarded length
check, then assignment to the underlying record's pre-fill slot (never to
`_input_value`). -/
def InputText.value_set (self : InputText) (v : Option String) :
    Except Err Unit × InputText :=
  if valueBad v then
    (.error (.valueError "value must be 4000 characters or fewer"), self)
  else
    (.ok (), { self with underlying := { self.underlying with value := v } })

/-- The `value` getter (source lines 214 to 220): returns `_input_value`
unless it is still the initial `False` sentinel, in which case the underlying
pre-fill is returned. -/
def InputText.value_get (self : InputText) : Option String :=
  match self.input_value with
  | some s => some s
  | none => self.underlying.value

/-- The `width` property (source lines 230 to 232): the constant 5. -/
def InputText.width (_ : InputText) : Nat := 5

/-- Serialization method `to_component_dict` (source lines 234 to 235): delegates to the
underlying record's `to_dict`. -/
def InputText.to_component_dict (self : InputText) : InputTextPayload :=
  self.underlying.to_dict

/-- Ingestion method `refresh_state` (source lines 237 to 238): overwrites `_input_value` with
`data["value"]` (a string under the framework contract of spec section 6). -/
def InputText.refresh_state (self : InputText) (dataValue : String) : InputText :=
  { self with input_value := some dataValue }

/-- The `custom_id` actually stored by a successful construction: the
supplied string, or the hex encoding of the entropy when the argument was
`None` (the `pyOther` case never reaches storage, so its value here is
irrelevant). -/
def cidResolve : PyStrArg → List Nat → String
  | .pyNone, ent => bytesToHex ent
  | .pyStr s, _ => s
  | .pyOther _, _ => ""

/-- A concrete, validly constructed field used to evaluate setters on. -/
def sampleField : InputText :=
  { underlying :=
      { type := .input_text
        style := .short
        custom_id := "abc123"
        label := "name"
        placeholder := none
        min_length := none
        max_length := none
        required := some true
        value := none
        id := none }
    input_value := none
    row := none
    rendered_row := none }

/-- Inversion for the constructor: a successful construction yields exactly
the record built from the arguments, with `_input_value` at its `False`
sentinel and `_rendered_row` at `None`. -/
theorem init_ok_inv {st : InputTextStyle} {cid : PyStrArg} {lb : String}
    {ph : Option String} {mn mx : Option Int} {rq : Option Bool}
    {vl : Option String} {rw : Option Int} {idv : Option Int} {ent : List Nat}
    {it : InputText}
    (h : InputText.init st cid lb ph mn mx rq vl rw idv ent = .ok it) :
    it = { underlying :=
             { type := .input_text
               style := st
               custom_id := cidResolve cid ent
               label := lb
               placeholder := ph
               min_length := mn
               max_length := mx
               required := rq
               value := vl
               id := idv }
           input_value := none
           row := rw
           rendered_row := none } := by
  unfold InputText.init at h
  repeat' split at h
  all_goals first
    | (injection h with h; subst h; rfl)
    | injection h

/-- The `style` setter never touches the `_input_value` response slot. -/
theorem style_set_input_value (it : InputText) (v : StyleArg) :
    (it.style_set v).2.input_value = it.input_value := by
  cases v <;> rfl

/-- The `custom_id` setter never touches the `_input_value` response slot. -/
theorem custom_id_set_input_value (it : InputText) (v : PyStrArg) :
    (it.custom_id_set v).2.input_value = it.input_value := by
  cases v <;> rfl

/-- The `label` setter never touches the `_input_value` response slot. -/
theorem label_set_input_value (it : InputText) (v : PyStrArg) :
    (it.label_set v).2.input_value = it.input_value := by
  cases v
  · rfl
  · simp only [InputText.label_set]
    split <;> rfl
  · rfl

/-- The `placeholder` setter never touches the `_input_value` response
slot. -/
theorem placeholder_set_input_value (it : InputText) (v : Option String) :
    (it.placeholder_set v).2.input_value = it.input_value := by
  simp only [InputText.placeholder_set]
  split <;> rfl

/-- The `min_length` setter never touches the `_input_value` response
slot. -/
theorem min_length_set_input_value (it : InputText) (v : Option Int) :
    (it.min_length_set v).2.input_value = it.input_value := by
  simp only [InputText.min_length_set]
  split <;> rfl

/-- The `max_length` setter never touches the `_input_value` response
slot. -/
theorem max_length_set_input_value (it : InputText) (v : Option Int) :
    (it.max_length_set v).2.input_value = it.input_value := by
  simp only [InputText.max_length_set]
  split <;> rfl

/-- The `required` setter never touches the `_input_value` response slot. -/
theorem required_set_input_value (it : InputText) (v : Option Bool) :
    (it.required_set v).2.input_value = it.input_value := by
  cases v <;> rfl

/-- The `value` setter writes the underlying pre-fill slot, never the
`_input_value` response slot. -/
theorem value_set_input_value (it : InputText) (v : Option String) :
    (it.value_set v).2.input_value = it.input_value := by
  simp only [InputText.value_set]
  split <;> rfl

/-- Reading `value` on a state whose response slot holds `some s` returns
`s`. -/
theorem value_get_of_some (it : InputText) (s : String)
    (h : it.input_value = some s) : it.value_get = some s := by
  unfold InputText.value_get
  rw [h]

/-- C9: for every TextInputField in every state, reading `width` returns the
constant 5. -/
theorem width_always_five : ∀ it : InputText, it.width = 5 := fun _ => rfl

/-- C1: contrary to the claim (and to the source docstring "Must be between
1 and 4000"), `max_length = 0` is NOT rejected: the constructor check
`if max_length and ...` and the setter check `if value and ...` are both
skipped when the value is the falsy integer `0`, so construction with
`max_length = 0` succeeds and stores 0, and the setter likewise accepts 0;
negative and greater-than-4000 values are rejected as claimed. -/
theorem max_length_zero_accepted :
    (InputText.init .short (.pyStr "cid") "name" none none (some 0) (some true)
        none none none []).map (fun it => it.underlying.max_length)
      = .ok (some 0)
    ∧ sampleField.max_length_set (some 0)
      = (.ok (), { sampleField with underlying :=
          { sampleField.underlying with max_length := some 0 } })
    ∧ (InputText.init .short (.pyStr "cid") "name" none none (some 4001)
        (some true) none none none [])
      = .error (.valueError "max_length must be between 1 and 4000")
    ∧ (InputText.init .short (.pyStr "cid") "name" none none (some (-1))
        (some true) none none none [])
      = .error (.valueError "max_length must be between 1 and 4000")
    ∧ sampleField.max_length_set (some 4001)
      = (.error (.valueError "max_length must be between 1 and 4000"), sampleField)
    ∧ sampleField.max_length_set (some (-1))
      = (.error (.valueError "max_length must be between 1 and 4000"), sampleField) :=
  ⟨rfl, rfl, rfl, rfl, rfl, rfl⟩

/-- C2: contrary to the claim, the `min_length` setter does NOT reject
negative values: the source writes `(value < 0 or value) > 4000`, so for a
negative value the parenthesized disjunction evaluates to `True`, the
comparison becomes `True > 4000` (i.e. `1 > 4000`), which is false, and the
negative value is stored without error — every negative integer is accepted.
The constructor rejects the same negative value, values in [0, 4000] are
accepted by the setter, and values above 4000 are rejected, as claimed. -/
theorem min_length_setter_accepts_negative :
    sampleField.min_length_set (some (-5))
      = (.ok (), { sampleField with underlying :=
          { sampleField.underlying with min_length := some (-5) } })
    ∧ (InputText.init .short (.pyStr "cid") "name" none (some (-5)) none
        (some true) none none none [])
      = .error (.valueError "min_length must be between 0 and 4000")
    ∧ sampleField.min_length_set (some 4001)
      = (.error (.valueError "min_length must be between 0 and 4000"), sampleField)
    ∧ sampleField.min_length_set (some 0)
      = (.ok (), { sampleField with underlying :=
          { sampleField.underlying with min_length := some 0 } })
    ∧ sampleField.min_length_set (some 4000)
      = (.ok (), { sampleField with underlying :=
          { sampleField.underlying with min_length := some 4000 } })
    ∧ (∀ (it : InputText) (n : Nat),
        it.min_length_set (some (-(n + 1 : Int)))
          = (.ok (), { it with underlying :=
              { it.underlying with min_length := some (-(n + 1 : Int)) } })) := by
  refine ⟨rfl, rfl, rfl, rfl, rfl, ?_⟩
  intro it n
  have h1 : (-(n + 1 : Int)) < 0 := by omega
  have hbad : minLengthBadSet (some (-(n + 1 : Int))) = false := by
    simp only [minLengthBadSet]
    rw [if_pos h1]
    simp
  unfold InputText.min_length_set
  rw [hbad]
  simp

/-- C7: for every label string, construction (with otherwise valid
arguments) succeeds exactly when the label has at most 45 characters and
fails with the `ValueError` "label must be 45 characters or fewer" exactly
when it is longer; the `label` setter enforces the same bound on every
state. -/
theorem label_length_bound :
    ∀ (l : String) (it : InputText),
      (InputText.init .short (.pyStr "cid") l none none none (some true)
          none none none []
        = .ok { underlying :=
                  { type := .input_text
                    style := .short
                    custom_id := "cid"
                    label := l
                    placeholder := none
                    min_length := none
                    max_length := none
                    required := some true
                    value := none
                    id := none }
                input_value := none
                row := none
                rendered_row := none }
        ↔ l.length ≤ 45)
      ∧ (InputText.init .short (.pyStr "cid") l none none none (some true)
            none none none []
          = .error (.valueError "label must be 45 characters or fewer")
          ↔ 45 < l.length)
      ∧ (it.label_set (.pyStr l)
          = (.ok (), { it with underlying := { it.underlying with label := l } })
          ↔ l.length ≤ 45)
      ∧ (it.label_set (.pyStr l)
          = (.error (.valueError "label must be 45 characters or fewer"), it)
          ↔ 45 < l.length) := by
  intro l it
  by_cases h : 45 < l.length
  · simp [InputText.init, InputText.label_set, h, minLengthBadInit,
      maxLengthBadInit, valueBad, placeholderBad, Nat.not_le.mpr h]
  · simp [InputText.init, InputText.label_set, h, minLengthBadInit,
      maxLengthBadInit, valueBad, placeholderBad, Nat.le_of_not_lt h]

/-- C3: before any `refresh_state` call the `value` read returns the
underlying pre-fill (and a fresh construction starts in that state with the
constructor-supplied pre-fill); after `refresh_state` with response `s` —
including the empty string, since the getter compares against the `False`
sentinel, not truthiness — every read returns `s`; and the transition is
one-way: on any state whose response slot is set, every setter and a further
`refresh_state` leave the read path on the response, never back on the
pre-fill. -/
theorem value_one_way_transition :
    (∀ (u : InputTextComponent) (r rr : Option Int),
        InputText.value_get
            { underlying := u, input_value := none, row := r, rendered_row := rr }
          = u.value)
    ∧ (∀ (st : InputTextStyle) (cid : PyStrArg) (lb : String)
          (ph : Option String) (mn mx : Option Int) (rq : Option Bool)
          (vl : Option String) (rw idv : Option Int) (ent : List Nat)
          (it : InputText),
          InputText.init st cid lb ph mn mx rq vl rw idv ent = .ok it →
            it.input_value = none ∧ it.value_get = vl)
    ∧ (∀ (it : InputText) (s : String), (it.refresh_state s).value_get = some s)
    ∧ (∀ (it : InputText) (s : String), it.input_value = some s →
        (∀ v, (it.style_set v).2.value_get = some s)
        ∧ (∀ v, (it.custom_id_set v).2.value_get = some s)
        ∧ (∀ v, (it.label_set v).2.value_get = some s)
        ∧ (∀ v, (it.placeholder_set v).2.value_get = some s)
        ∧ (∀ v, (it.min_length_set v).2.value_get = some s)
        ∧ (∀ v, (it.max_length_set v).2.value_get = some s)
        ∧ (∀ v, (it.required_set v).2.value_get = some s)
        ∧ (∀ v, (it.value_set v).2.value_get = some s)
        ∧ (∀ t, (it.refresh_state t).value_get = some t)) := by
  refine ⟨fun u r rr => rfl, ?_, fun it s => rfl, ?_⟩
  · intro st cid lb ph mn mx rq vl rw idv ent it h
    rw [init_ok_inv h]
    exact ⟨rfl, rfl⟩
  · intro it s h
    exact ⟨fun v => value_get_of_some _ s ((style_set_input_value it v).trans h),
      fun v => value_get_of_some _ s ((custom_id_set_input_value it v).trans h),
      fun v => value_get_of_some _ s ((label_set_input_value it v).trans h),
      fun v => value_get_of_some _ s ((placeholder_set_input_value it v).trans h),
      fun v => value_get_of_some _ s ((min_length_set_input_value it v).trans h),
      fun v => value_get_of_some _ s ((max_length_set_input_value it v).trans h),
      fun v => value_get_of_some _ s ((required_set_input_value it v).trans h),
      fun v => value_get_of_some _ s ((value_set_input_value it v).trans h),
      fun t => rfl⟩

/-- Witness for C3: a fresh concrete construction reads its (absent)
pre-fill; after ingesting the response "hi", even assigning a new pre-fill
"x" leaves the read at "hi"; ingesting the empty string reads back the empty
string. -/
theorem value_one_way_transition_witness :
    (InputText.init .short (.pyStr "abc123") "name" none none none (some true)
        none none none [] = .ok sampleField)
    ∧ sampleField.input_value = none
    ∧ sampleField.value_get = none
    ∧ ((sampleField.refresh_state "hi").value_set (some "x")).2.value_get = some "hi"
    ∧ (sampleField.refresh_state "").value_get = some "" :=
  ⟨rfl,
   (value_one_way_transition.2.1 .short (.pyStr "abc123") "name" none none none
      (some true) none none none [] sampleField rfl).1,
   (value_one_way_transition.2.1 .short (.pyStr "abc123") "name" none none none
      (some true) none none none [] sampleField rfl).2,
   ((value_one_way_transition.2.2.2 (sampleField.refresh_state "hi") "hi"
      rfl).2.2.2.2.2.2.2.1 (some "x")),
   value_one_way_transition.2.2.1 sampleField ""⟩

/-- C5: failing operations are atomic.  Construction either returns the
fully built object or an error and no object (the result type carries no
object in the error case, and no partially initialized record is ever
produced); every setter either succeeds or returns the state exactly as it
was, since every raise in the source occurs before any assignment. -/
theorem setter_failure_atomic :
    (∀ (st : InputTextStyle) (cid : PyStrArg) (lb : String)
        (ph : Option String) (mn mx : Option Int) (rq : Option Bool)
        (vl : Option String) (rw idv : Option Int) (ent : List Nat),
        InputText.init st cid lb ph mn mx rq vl rw idv ent
            = .ok { underlying :=
                      { type := .input_text
                        style := st
                        custom_id := cidResolve cid ent
                        label := lb
                        placeholder := ph
                        min_length := mn
                        max_length := mx
                        required := rq
                        value := vl
                        id := idv }
                    input_value := none
                    row := rw
                    rendered_row := none }
          ∨ ∃ e, InputText.init st cid lb ph mn mx rq vl rw idv ent = .error e)
    ∧ (∀ it : InputText,
        (∀ v, (it.style_set v).1 = .ok () ∨ (it.style_set v).2 = it)
        ∧ (∀ v, (it.custom_id_set v).1 = .ok () ∨ (it.custom_id_set v).2 = it)
        ∧ (∀ v, (it.label_set v).1 = .ok () ∨ (it.label_set v).2 = it)
        ∧ (∀ v, (it.placeholder_set v).1 = .ok () ∨ (it.placeholder_set v).2 = it)
        ∧ (∀ v, (it.min_length_set v).1 = .ok () ∨ (it.min_length_set v).2 = it)
        ∧ (∀ v, (it.max_length_set v).1 = .ok () ∨ (it.max_length_set v).2 = it)
        ∧ (∀ v, (it.required_set v).1 = .ok () ∨ (it.required_set v).2 = it)
        ∧ (∀ v, (it.value_set v).1 = .ok () ∨ (it.value_set v).2 = it)) := by
  constructor
  · intro st cid lb ph mn mx rq vl rw idv ent
    cases h : InputText.init st cid lb ph mn mx rq vl rw idv ent with
    | ok it =>
        left
        exact congrArg Except.ok (init_ok_inv h)
    | error e =>
        right
        exact ⟨e, rfl⟩
  · intro it
    refine ⟨fun v => ?_, fun v => ?_, fun v => ?_, fun v => ?_, fun v => ?_,
      fun v => ?_, fun v => ?_, fun v => ?_⟩
    · cases v
      · exact Or.inl rfl
      · exact Or.inr rfl
    · cases v
      · exact Or.inr rfl
      · exact Or.inl rfl
      · exact Or.inr rfl
    · cases v
      · exact Or.inr rfl
      · simp only [InputText.label_set]
        split
        · exact Or.inr rfl
        · exact Or.inl rfl
      · exact Or.inr rfl
    · simp only [InputText.placeholder_set]
      split
      · exact Or.inr rfl
      · exact Or.inl rfl
    · simp only [InputText.min_length_set]
      split
      · exact Or.inr rfl
      · exact Or.inl rfl
    · simp only [InputText.max_length_set]
      split
      · exact Or.inr rfl
      · exact Or.inl rfl
    · cases v
      · exact Or.inr rfl
      · exact Or.inl rfl
    · simp only [InputText.value_set]
      split
      · exact Or.inr rfl
      · exact Or.inl rfl

/-- C8: assigning a non-enum value to `style` raises `TypeError` and leaves
the state unchanged; assigning a valid enum member succeeds and the next
serialize-to-wire-record output carries the new style's wire value, all
other payload fields unchanged. -/
theorem style_setter_behavior :
    ∀ (it : InputText) (tn : String) (s : InputTextStyle),
      it.style_set (.other tn)
          = (.error (.typeError ("style must be of type InputTextStyle not " ++ tn)), it)
      ∧ (it.style_set (.enum s)).1 = .ok ()
      ∧ (it.style_set (.enum s)).2.to_component_dict
          = { it.to_component_dict with style := s.value } :=
  fun _ _ _ => ⟨rfl, rfl, rfl⟩

/-- C10: once a response has been ingested, assigning a pre-fill through the
`value` setter never changes the externally observed value (reads still
return the ingested response, whether or not the assignment validated);
the setter writes only the underlying pre-fill slot and leaves every other
field alone; and no setter modifies the `_input_value` response slot — only
`refresh_state` does. -/
theorem value_setter_after_refresh :
    (∀ (it : InputText) (s : String) (v : Option String),
        ((it.refresh_state s).value_set v).2.value_get = some s)
    ∧ (∀ (it : InputText) (v : Option String),
        (it.value_set v).2.input_value = it.input_value
        ∧ (it.value_set v).2.underlying
            = { it.underlying with
                  value := if valueBad v = true then it.underlying.value else v }
        ∧ (it.value_set v).2.row = it.row
        ∧ (it.value_set v).2.rendered_row = it.rendered_row)
    ∧ (∀ it : InputText,
        (∀ v, (it.style_set v).2.input_value = it.input_value)
        ∧ (∀ v, (it.custom_id_set v).2.input_value = it.input_value)
        ∧ (∀ v, (it.label_set v).2.input_value = it.input_value)
        ∧ (∀ v, (it.placeholder_set v).2.input_value = it.input_value)
        ∧ (∀ v, (it.min_length_set v).2.input_value = it.input_value)
        ∧ (∀ v, (it.max_length_set v).2.input_value = it.input_value)
        ∧ (∀ v, (it.required_set v).2.input_value = it.input_value)
        ∧ (∀ v, (it.value_set v).2.input_value = it.input_value)) := by
  refine ⟨?_, ?_, ?_⟩
  · intro it s v
    simp only [InputText.value_set]
    split <;> rfl
  · intro it v
    refine ⟨value_set_input_value it v, ?_, ?_, ?_⟩
    · simp only [InputText.value_set]
      split <;> rfl
    · simp only [InputText.value_set]
      split <;> rfl
    · simp only [InputText.value_set]
      split <;> rfl
  · intro it
    exact ⟨style_set_input_value it, custom_id_set_input_value it,
      label_set_input_value it, placeholder_set_input_value it,
      min_length_set_input_value it, max_length_set_input_value it,
      required_set_input_value it, value_set_input_value it⟩

/-- The hex encoding of a byte list has two characters per byte. -/
theorem bytesToHex_length (bs : List Nat) :
    (bytesToHex bs).length = 2 * bs.length := by
  unfold bytesToHex
  show (List.flatten (bs.map byteToHex)).length = 2 * bs.length
  induction bs with
  | nil => rfl
  | cons b bs ih =>
      rw [List.map_cons, List.flatten_cons, List.length_append, ih]
      have h2 : (byteToHex b).length = 2 := rfl
      rw [h2, List.length_cons]
      omega

/-- Every output of `hexDigit` lies in the (lowercase) hex alphabet. -/
theorem hexDigit_mem (n : Nat) : hexDigit n ∈ hexChars := by
  unfold hexDigit
  rw [List.getD_eq_getElem?_getD]
  cases h : hexChars[n]? with
  | none =>
      simp only [Option.getD_none]
      decide
  | some c =>
      simp only [Option.getD_some]
      exact List.getElem?_mem h

/-- Every character of a hex encoding lies in the (lowercase) hex
alphabet. -/
theorem bytesToHex_chars (bs : List Nat) :
    ∀ c ∈ (bytesToHex bs).data, c ∈ hexChars := by
  intro c hc
  have hc2 : c ∈ List.flatten (bs.map byteToHex) := hc
  rw [List.mem_flatten] at hc2
  obtain ⟨l, hl, hcl⟩ := hc2
  rw [List.mem_map] at hl
  obtain ⟨b, _, rfl⟩ := hl
  simp only [byteToHex, List.mem_cons, List.not_mem_nil, or_false] at hcl
  rcases hcl with rfl | rfl
  · exact hexDigit_mem _
  · exact hexDigit_mem _

/-- A concrete field constructed with an omitted `custom_id` and the
all-zero 16-byte entropy. -/
def genField : InputText :=
  { underlying :=
      { type := .input_text
        style := .short
        custom_id := bytesToHex (List.replicate 16 0)
        label := "name"
        placeholder := none
        min_length := none
        max_length := none
        required := some true
        value := none
        id := none }
    input_value := none
    row := none
    rendered_row := none }

/-- C4 counterexample: supplying the empty string as `custom_id` is accepted
(the empty string passes the `isinstance(custom_id, str)` check) and stored
verbatim, so construction CAN produce an empty `custom_id`, refuting the
never-empty part of the claim. -/
theorem custom_id_empty_counterexample :
    (InputText.init .short (.pyStr "") "name" none none none (some true)
        none none none []).map (fun it => it.underlying.custom_id)
      = .ok "" := rfl

/-- C4 amended: after every successful construction `custom_id` is a string:
when omitted it is generated from the 16 random bytes as their 32-character
hex encoding over the lowercase alphabet `hexChars`; when supplied it must
be a string (`TypeError` otherwise) and is stored verbatim — including the
empty string, so non-emptiness is guaranteed only for generated IDs; the
setter likewise accepts exactly strings and stores them verbatim. -/
theorem custom_id_after_construction :
    (∀ (st : InputTextStyle) (lb : String) (ph : Option String)
        (mn mx : Option Int) (rq : Option Bool) (vl : Option String)
        (rw idv : Option Int) (ent : List Nat) (it : InputText),
        InputText.init st .pyNone lb ph mn mx rq vl rw idv ent = .ok it →
          it.underlying.custom_id = bytesToHex ent
          ∧ (ent.length = 16 →
              it.underlying.custom_id.length = 32
              ∧ ∀ c ∈ it.underlying.custom_id.data, c ∈ hexChars))
    ∧ (∀ (st : InputTextStyle) (s lb : String) (ph : Option String)
        (mn mx : Option Int) (rq : Option Bool) (vl : Option String)
        (rw idv : Option Int) (ent : List Nat) (it : InputText),
        InputText.init st (.pyStr s) lb ph mn mx rq vl rw idv ent = .ok it →
          it.underlying.custom_id = s)
    ∧ (∀ tn : String,
        InputText.init .short (.pyOther tn) "name" none none none (some true)
            none none none []
          = .error (.typeError ("expected custom_id to be str, not " ++ tn)))
    ∧ (∀ (it : InputText) (s : String),
        it.custom_id_set (.pyStr s)
          = (.ok (), { it with underlying :=
              { it.underlying with custom_id := s } }))
    ∧ (∀ (it : InputText) (tn : String),
        it.custom_id_set (.pyOther tn)
          = (.error (.typeError ("custom_id must be None or str not " ++ tn)), it))
    ∧ (∀ it : InputText,
        it.custom_id_set .pyNone
          = (.error (.typeError "custom_id must be None or str not NoneType"), it)) := by
  refine ⟨?_, ?_, fun tn => rfl, fun it s => rfl, fun it tn => rfl, fun it => rfl⟩
  · intro st lb ph mn mx rq vl rw idv ent it h
    rw [init_ok_inv h]
    refine ⟨rfl, fun hlen => ⟨?_, ?_⟩⟩
    · show (bytesToHex ent).length = 32
      rw [bytesToHex_length, hlen]
    · exact bytesToHex_chars ent
  · intro st s lb ph mn mx rq vl rw idv ent it h
    rw [init_ok_inv h]
    rfl

/-- Witness for C4's amended theorem: the construction with omitted
`custom_id` and all-zero entropy yields the 32-character all-zero hex
string, and a supplied `custom_id` is stored verbatim. -/
theorem custom_id_after_construction_witness :
    genField.underlying.custom_id = bytesToHex (List.replicate 16 0)
    ∧ genField.underlying.custom_id.length = 32
    ∧ (∀ c ∈ genField.underlying.custom_id.data, c ∈ hexChars)
    ∧ sampleField.underlying.custom_id = "abc123" :=
  have h1 := custom_id_after_construction.1 .short "name" none none none
    (some true) none none none (List.replicate 16 0) genField rfl
  have h2 := custom_id_after_construction.2.1 .short "abc123" "name" none none
    none (some true) none none none [] sampleField rfl
  ⟨h1.1, (h1.2 rfl).1, (h1.2 rfl).2, h2⟩

/-- C6: serializing a successfully constructed field reproduces exactly the
construction inputs: the type tag for input-text, the style's wire value,
the supplied (or generated) `custom_id`, label, placeholder, `min_length`,
`max_length`, `required`, `value` and `id`; the `row` argument does not
appear — the payload record has no row field and the output is independent
of the row supplied. -/
theorem to_component_dict_round_trip :
    ∀ (st : InputTextStyle) (cid : PyStrArg) (lb : String) (ph : Option String)
      (mn mx : Option Int) (rq : Option Bool) (vl : Option String)
      (rw idv : Option Int) (ent : List Nat) (it : InputText),
      InputText.init st cid lb ph mn mx rq vl rw idv ent = .ok it →
        it.to_component_dict
          = { type := .input_text
              style := st.value
              custom_id := cidResolve cid ent
              label := lb
              placeholder := ph
              min_length := mn
              max_length := mx
              required := rq
              value := vl
              id := idv } := by
  intro st cid lb ph mn mx rq vl rw idv ent it h
  rw [init_ok_inv h]
  rfl

/-- Witness for C6: serializing the concrete `sampleField` (constructed with
row `none`; any row yields the same payload) reproduces its construction
inputs, with style Short serialized as 1 and no row in the record. -/
theorem to_component_dict_round_trip_witness :
    sampleField.to_component_dict
      = { type := .input_text
          style := 1
          custom_id := "abc123"
          label := "name"
          placeholder := none
          min_length := none
          max_length := none
          required := some true
          value := none
          id := none } :=
  to_component_dict_round_trip .short (.pyStr "abc123") "name" none none none
    (some true) none none none [] sampleField rfl

end Pycord
